import Mathlib

/-
Verification development for the deck probability and simulation toolkit of
the eternal_ccg repository (Python sources under src/decks/).

The Python modules are shallowly embedded as executable Lean definitions:
  * power_calculator.py : binomial / hypergeometric primitives and
    DeckPowerAnalyzer (power sources, influence sources, odds inputs);
  * deck_analysis.py    : DeckAnalyzer card loading and the keyword tally
    of analyze_synergies;
  * draw_simulator.py   : DrawSimulator (mulligan, serialization);
  * goldfish_simulator.py : GoldfishSimulator (turn loop, play_card,
    auto_play_turn, serialization);
  * battle_simulator.py : BattleSimulator (full game loop, combat,
    winner determination).

Randomness (random.shuffle, random.random, random.randint) is made explicit:
every use of random.shuffle becomes an explicit function parameter
`shuffle : List _ → List _` (quantified over, with a permutation hypothesis
where a theorem needs it), the first-player coin flip becomes a Bool, and
random.randint's sample becomes a Nat oracle mapped into the requested range.
Python exceptions are modelled with Except.  Machine integers are Nat / Int
(Python ints are unbounded, so no wrap-around modelling is needed); the
float-valued probability functions are modelled over ℚ, which is exact for
every arithmetic step the code performs apart from rounding, and rounding is
irrelevant to the claims treated here.
-/

/-- Faction pip counts, the shallow embedding of the `{'F': n, ...}` dicts
built by the four identical `_parse_influence` methods.  A faction absent
from the Python dict is represented by a 0 field (the dicts only ever hold
strictly positive counts, so the representations are interchangeable). -/
structure Influence where
  F : Nat
  T : Nat
  J : Nat
  P : Nat
  S : Nat
deriving DecidableEq

/-- The all-zero influence record (the empty Python dict). -/
def zeroInfluence : Influence := ⟨0, 0, 0, 0, 0⟩

/-- The `FACTIONS` membership test shared by all modules:
`char in self.FACTIONS` for the dict keyed by 'F','T','J','P','S'. -/
def isFactionChar (c : Char) : Bool :=
  c == 'F' || c == 'T' || c == 'J' || c == 'P' || c == 'S'

/-- One step of influence parsing: increment the matching faction count,
ignore any unrecognized character. -/
def addPip (i : Influence) (c : Char) : Influence :=
  if c == 'F' then { i with F := i.F + 1 }
  else if c == 'T' then { i with T := i.T + 1 }
  else if c == 'J' then { i with J := i.J + 1 }
  else if c == 'P' then { i with P := i.P + 1 }
  else if c == 'S' then { i with S := i.S + 1 }
  else i

/-- `_parse_influence` (identical in power_calculator.py, battle_simulator.py,
goldfish_simulator.py and deck_analysis.py): fold over the characters of the
influence string, counting recognized faction characters. -/
def parseInfluence (s : String) : Influence :=
  s.data.foldl addPip zeroInfluence

/-- Emptiness test for a parsed influence record: the Python code tests
`if not influence_provided` on the dict, which is empty iff no recognized
character occurred, iff all five counts are zero. -/
def influenceIsEmpty (i : Influence) : Bool :=
  i.F == 0 && i.T == 0 && i.J == 0 && i.P == 0 && i.S == 0

/-- Pointwise comparison `required ≤ available`, the embedding of
`for faction, count in required.items(): if influence.get(faction,0) < count`
(a faction absent from `required` imposes no constraint, matching the 0
field). -/
def influenceLe (req avail : Influence) : Bool :=
  decide (req.F ≤ avail.F) && decide (req.T ≤ avail.T) &&
  decide (req.J ≤ avail.J) && decide (req.P ≤ avail.P) &&
  decide (req.S ≤ avail.S)

/-- Add every recognized faction character of an influence string to a tally,
the embedding of the `for char in card.influence: if char in self.FACTIONS:
influence[char] += 1` loops of the goldfish and battle simulators. -/
def addInfluenceString (i : Influence) (s : String) : Influence :=
  s.data.foldl addPip i

/-- The read-only card snapshot consumed by the core (cards.models.Card
fields used by the deck toolkit).  `attack`/`health` model
`card.attack or 0` / `card.health or 0` (None already mapped to 0). -/
structure Card where
  id : Nat
  name : String
  card_type : String
  cost : Nat
  influence : String
  attack : Nat
  health : Nat
  card_text : String
  unit_types : String
  image_url : String
deriving DecidableEq

/-- One deck slot (decks.models.DeckCard): a card, a quantity and the
market flag.  A deck snapshot is the list of slots in iteration order of
`deck.cards.select_related('card').all()`. -/
structure DeckCard where
  card : Card
  quantity : Nat
  is_market : Bool
deriving DecidableEq

/-- `Deck.main_deck_count` (decks/models.py): total quantity over the
non-market slots. -/
def mainDeckCount : List DeckCard → Nat
  | [] => 0
  | e :: rest => (if e.is_market then 0 else e.quantity) + mainDeckCount rest

/-- The `card.card_type in ['Power', 'Sigil']` test used by every module. -/
def isPowerType (t : String) : Bool :=
  t == "Power" || t == "Sigil"

/-- Whitespace test for the embedding of Python's `str.strip`. -/
def isPyWhitespace (c : Char) : Bool :=
  c == ' ' || c == '\t' || c == '\n' || c == '\r' ||
  c == '\x0b' || c == '\x0c'

/-- Drop leading whitespace from a character list. -/
def dropLeadingWS : List Char → List Char
  | [] => []
  | c :: cs => if isPyWhitespace c then dropLeadingWS cs else c :: cs

/-- Python `str.strip()` on the character level: drop whitespace from both
ends. -/
def stripChars (l : List Char) : List Char :=
  (dropLeadingWS (dropLeadingWS l.reverse).reverse)

/-- Case-sensitive anchored match: does `w` occur at the very start of
`rest`?  (Python `str.startswith`.) -/
def matchesAt : List Char → List Char → Bool
  | [], _ => true
  | _ :: _, [] => false
  | a :: as, b :: bs => a == b && matchesAt as bs

/-- Case-sensitive substring search (Python `w in text`). -/
def containsSeq (w : List Char) : List Char → Bool
  | [] => matchesAt w []
  | c :: cs => matchesAt w (c :: cs) || containsSeq w cs

/-- `DeckPowerAnalyzer._is_depleted`: the stripped card text starts with
"Depleted;" or "Depleted.". -/
def isDepletedText (text : String) : Bool :=
  matchesAt "Depleted;".data (stripChars text.data) ||
  matchesAt "Depleted.".data (stripChars text.data)

/-- `DeckPowerAnalyzer._is_conditional`: the card text contains
"Depleted unless".  (The `if not card_text` guards of both helpers return
False for the empty string, which the searches below also do.) -/
def isConditionalText (text : String) : Bool :=
  containsSeq "Depleted unless".data text.data

/-- `factorial` of power_calculator.py (memoization is irrelevant to the
value). -/
def pyFactorial (n : Nat) : Nat :=
  if n ≤ 1 then 1 else (List.range n).foldl (fun r i => r * (i + 1)) 1

/-- `binomial` of power_calculator.py.  Returns 0 when `k > n` (the `k < 0`
branch is unreachable over Nat inputs, which is the claim's input domain).
The multiplicative loop uses floor division exactly as `//` does; each
partial quotient is exact, so the result is the binomial coefficient. -/
def binomial (n k : Nat) : Nat :=
  if k > n then 0
  else if k == 0 || k == n then 1
  else
    let k' := min k (n - k)
    (List.range k').foldl (fun result i => result * (n - i) / (i + 1)) 1

/-- `hypergeometric_probability` of power_calculator.py over exact
rationals.  The third early return compares `draws - observed` with
`population - successes` over ℤ because Python subtraction of ints can be
negative there. -/
def hypergeometricProbability (N K n k : Nat) : ℚ :=
  if k > K then 0
  else if k > n then 0
  else if (n : Int) - (k : Int) > (N : Int) - (K : Int) then 0
  else
    let numerator := binomial K k * binomial (N - K) (n - k)
    let denominator := binomial N n
    if denominator == 0 then 0 else (numerator : ℚ) / (denominator : ℚ)

/-- `probability_at_least` of power_calculator.py: sum of the PMF for
`k = kMin .. min n K` (an empty range sums to 0, exactly as the Python
`for` loop does; `min_successes <= 0` returns 1).  Over Nat inputs the
`kMin ≤ 0` test is `kMin = 0`. -/
def probabilityAtLeast (N K n kMin : Nat) : ℚ :=
  if kMin == 0 then 1
  else
    let maxPossible := min n K
    (List.range (maxPossible + 1 - kMin)).foldl
      (fun total i => total + hypergeometricProbability N K n (kMin + i)) 0

/-- `PowerSource` of power_calculator.py. -/
structure PowerSource where
  card_name : String
  card_id : Nat
  quantity : Nat
  influence_provided : Influence
  is_depleted : Bool
  is_conditional : Bool
  power_provided : Nat
deriving DecidableEq

/-- Build the `PowerSource` record exactly as `_analyze_power_sources`
does (with the default `power_provided = 1`). -/
def mkPowerSource (e : DeckCard) (inf : Influence) : PowerSource :=
  { card_name := e.card.name
    card_id := e.card.id
    quantity := e.quantity
    influence_provided := inf
    is_depleted := isDepletedText e.card.card_text
    is_conditional := isConditionalText e.card.card_text
    power_provided := 1 }

/-- The loop body of `DeckPowerAnalyzer._analyze_power_sources`: walk the
deck slots in order, accumulate `total_cards` over EVERY slot (the code has
no `is_market` filter here, unlike the other four modules), and collect a
`PowerSource` for every power-type slot whose parsed influence is
non-empty. -/
def analyzeLoop : List DeckCard → List PowerSource × Nat
  | [] => ([], 0)
  | e :: rest =>
    let tail := analyzeLoop rest
    let sources :=
      if isPowerType e.card.card_type then
        let inf := parseInfluence e.card.influence
        if influenceIsEmpty inf then tail.1
        else mkPowerSource e inf :: tail.1
      else tail.1
    (sources, e.quantity + tail.2)

/-- The analyzer state built by `DeckPowerAnalyzer.__init__` /
`_analyze_power_sources`. -/
structure DeckPowerAnalyzer where
  power_sources : List PowerSource
  total_cards : Nat
deriving DecidableEq

/-- `DeckPowerAnalyzer(deck)`. -/
def mkAnalyzer (deck : List DeckCard) : DeckPowerAnalyzer :=
  { power_sources := (analyzeLoop deck).1
    total_cards := (analyzeLoop deck).2 }

/-- `DeckPowerAnalyzer.get_total_power_count`: sum of quantities over the
collected power sources. -/
def getTotalPowerCount (a : DeckPowerAnalyzer) : Nat :=
  a.power_sources.foldl (fun acc ps => acc + ps.quantity) 0

/-- The per-faction accumulation of `DeckPowerAnalyzer.get_influence_sources`:
`for faction, count in ps.influence_provided.items(): sources[faction] +=
ps.quantity` — each faction present in the dict (count > 0) receives the
slot quantity once, regardless of the pip count. -/
def sumSources : List PowerSource → Influence
  | [] => zeroInfluence
  | ps :: rest =>
    let acc := sumSources rest
    { F := acc.F + (if ps.influence_provided.F > 0 then ps.quantity else 0)
      T := acc.T + (if ps.influence_provided.T > 0 then ps.quantity else 0)
      J := acc.J + (if ps.influence_provided.J > 0 then ps.quantity else 0)
      P := acc.P + (if ps.influence_provided.P > 0 then ps.quantity else 0)
      S := acc.S + (if ps.influence_provided.S > 0 then ps.quantity else 0) }

/-- `DeckPowerAnalyzer.get_influence_sources`. -/
def getInfluenceSources (a : DeckPowerAnalyzer) : Influence :=
  sumSources a.power_sources

/-- `DeckPowerAnalyzer.calculate_power_odds`: probability of at least
`powerNeeded` power among `min (6 + byTurn) total_cards` seen cards. -/
def calculatePowerOdds (a : DeckPowerAnalyzer) (powerNeeded byTurn : Nat) : ℚ :=
  let totalPower := getTotalPowerCount a
  let cardsDrawn := min (6 + byTurn) a.total_cards
  probabilityAtLeast a.total_cards totalPower cardsDrawn powerNeeded

/-- Specification-side definition for the amended claim C2, written from the
amended wording and NOT from the analyzer code: for each faction, the total
quantity of power-type slots whose influence string contains at least one
pip of that faction (each copy counted once per faction, however many pips
of that faction it carries). -/
def influenceCopySources : List DeckCard → Influence
  | [] => zeroInfluence
  | e :: rest =>
    let acc := influenceCopySources rest
    let inf := parseInfluence e.card.influence
    let keep := isPowerType e.card.card_type
    { F := acc.F + (if keep && inf.F > 0 then e.quantity else 0)
      T := acc.T + (if keep && inf.T > 0 then e.quantity else 0)
      J := acc.J + (if keep && inf.J > 0 then e.quantity else 0)
      P := acc.P + (if keep && inf.P > 0 then e.quantity else 0)
      S := acc.S + (if keep && inf.S > 0 then e.quantity else 0) }

/-- The per-slot dictionary built by `DeckAnalyzer._load_cards`
(deck_analysis.py).  Each expanded copy of a slot shares one such record,
including the slot quantity. -/
structure CardInfo where
  id : Nat
  name : String
  cost : Nat
  card_type : String
  influence : String
  attack : Nat
  health : Nat
  card_text : String
  unit_types : String
  image_url : String
  quantity : Nat
  is_power : Bool
deriving DecidableEq

/-- The record `_load_cards` builds for one slot. -/
def mkCardInfo (e : DeckCard) : CardInfo :=
  { id := e.card.id
    name := e.card.name
    cost := e.card.cost
    card_type := e.card.card_type
    influence := e.card.influence
    attack := e.card.attack
    health := e.card.health
    card_text := e.card.card_text
    unit_types := e.card.unit_types
    image_url := e.card.image_url
    quantity := e.quantity
    is_power := isPowerType e.card.card_type }

/-- `DeckAnalyzer._load_cards`: skip market slots, then append the slot's
record once per copy (`for _ in range(deck_card.quantity)`). -/
def loadCards : List DeckCard → List CardInfo
  | [] => []
  | e :: rest =>
    (if e.is_market then [] else List.replicate e.quantity (mkCardInfo e)) ++
      loadCards rest

/-- `self.non_power_cards` of DeckAnalyzer: the loaded copies whose type is
not a power type (built in the same loop; equal to filtering the full
list). -/
def nonPowerCards (deck : List DeckCard) : List CardInfo :=
  (loadCards deck).filter (fun c => !c.is_power)

/-- Python regex word character (`\w` over the ASCII texts involved):
letters, digits or underscore. -/
def isWordChar (c : Char) : Bool :=
  c.isAlphanum || c == '_'

/-- Case-insensitive anchored match: try to consume `w` at the start of the
text, returning the remainder on success. -/
def dropMatchCI : List Char → List Char → Option (List Char)
  | [], l => some l
  | _ :: _, [] => none
  | a :: as, b :: bs => if a.toLower == b.toLower then dropMatchCI as bs else none

/-- Does `w` match at the start of `l` with a word boundary after it?  (The
boundary before is checked by the caller.) -/
def boundaryMatchHere (w l : List Char) : Bool :=
  match dropMatchCI w l with
  | none => false
  | some [] => true
  | some (d :: _) => !isWordChar d

/-- Scan of `re.search(rf'\b{keyword}\b', text, re.IGNORECASE)` for a
keyword made of word characters: some position of the text matches the
keyword case-insensitively, with no word character immediately before or
after. -/
def wordSearchAux (w : List Char) : Option Char → List Char → Bool
  | _, [] => false
  | prev, c :: cs =>
    ((match prev with
      | none => true
      | some p => !isWordChar p) && boundaryMatchHere w (c :: cs)) ||
    wordSearchAux w (some c) cs

/-- Whole-word, case-insensitive containment of `kw` in `text`. -/
def containsWord (kw text : String) : Bool :=
  wordSearchAux kw.data none text.data

/-- The keyword tally of `DeckAnalyzer.analyze_synergies` restricted to a
single keyword: iterate over the expanded non-power copies and add
`card['quantity']` for every copy whose text matches the word-boundary
regex (this per-copy iteration is the source of the quantity-squared
behaviour examined in claim C7). -/
def keywordCount (kw : String) (deck : List DeckCard) : Nat :=
  (nonPowerCards deck).foldl
    (fun acc c => if containsWord kw c.card_text then acc + c.quantity else acc) 0

/-- `SimCard` of draw_simulator.py. -/
structure SimCard where
  id : Nat
  name : String
  card_type : String
  cost : Nat
  influence : String
  image_url : String
  is_power : Bool
deriving DecidableEq

/-- `DrawSimulator`'s dataclass fields. -/
structure DrawSimulator where
  deck_cards : List SimCard
  current_hand : List SimCard
  remaining_deck : List SimCard
  mulligan_count : Nat
  max_mulligans : Nat
deriving DecidableEq

/-- `DrawSimulator.from_deck`'s card expansion: skip market slots and add
the card `quantity` times. -/
def toSimCard (c : Card) : SimCard :=
  { id := c.id
    name := c.name
    card_type := c.card_type
    cost := c.cost
    influence := c.influence
    image_url := c.image_url
    is_power := isPowerType c.card_type }

/-- Main-deck expansion performed by `DrawSimulator.from_deck`. -/
def deckToSimCards : List DeckCard → List SimCard
  | [] => []
  | e :: rest =>
    (if e.is_market then [] else List.replicate e.quantity (toSimCard e.card)) ++
      deckToSimCards rest

/-- `DrawSimulator.shuffle_and_draw`: reset the mulligan counter, shuffle a
copy of the deck, draw 7 (take/drop is the 7-fold guarded pop of the
Python loop). -/
def shuffleAndDraw (shuffle : List SimCard → List SimCard)
    (s : DrawSimulator) : DrawSimulator :=
  let shuffled := shuffle s.deck_cards
  { s with
    mulligan_count := 0
    current_hand := shuffled.take 7
    remaining_deck := shuffled.drop 7 }

/-- `DrawSimulator.from_deck`. -/
def drawSimFromDeck (shuffle : List SimCard → List SimCard)
    (deck : List DeckCard) : DrawSimulator :=
  shuffleAndDraw shuffle
    { deck_cards := deckToSimCards deck
      current_hand := []
      remaining_deck := []
      mulligan_count := 0
      max_mulligans := 2 }

/-- `random.randint(2, hi)` with an explicit sample oracle `r`: Python
raises `ValueError` when `hi < 2` (empty range); otherwise every value of
`{2, ..., hi}` is reachable as `r` varies. -/
def randintFrom2 (hi : Nat) (r : Nat) : Except String Nat :=
  if hi < 2 then Except.error "ValueError: empty range for randrange"
  else Except.ok (2 + r % (hi - 1))

/-- Remove from `l` one occurrence of each element of `toRemove`, keeping
the order of `l`: the embedding of the `id()`-based exclusion
`[c for c in full_deck if id(c) not in hand_set]` (object identity among
value-equal copies is resolved to the first occurrence, which leaves the
resulting multiset and order identical). -/
def removeFirstOccs (toRemove l : List SimCard) : List SimCard :=
  toRemove.foldl (fun acc c => acc.erase c) l

/-- `DrawSimulator.mulligan`.  Every `random.shuffle` call is the explicit
`shuffle` parameter, `random.randint`'s sample is the oracle `r`, and the
`ValueError` Python would raise surfaces as `Except.error`.  On success the
result carries the updated simulator and the Python return value
`(new hand, can_mulligan_again)`. -/
def mulligan (shuffle : List SimCard → List SimCard) (r : Nat)
    (s : DrawSimulator) : Except String (DrawSimulator × List SimCard × Bool) :=
  if s.mulligan_count ≥ s.max_mulligans then
    Except.ok (s, s.current_hand, false)
  else
    let mc := s.mulligan_count + 1
    let handSize := if mc == 1 then 7 else 6
    let fullDeck := shuffle s.deck_cards
    let powerCards := shuffle (fullDeck.filter (fun c => c.is_power))
    let nonPower := shuffle (fullDeck.filter (fun c => !c.is_power))
    match randintFrom2 (min 4 (min powerCards.length (handSize - 1))) r with
    | Except.error e => Except.error e
    | Except.ok powerCount0 =>
      let nonPowerCount0 := handSize - powerCount0
      let powerCount1 := min powerCount0 powerCards.length
      let nonPowerCount := min nonPowerCount0 nonPower.length
      let powerCount :=
        if powerCount1 + nonPowerCount < handSize then
          powerCount1 +
            min (handSize - powerCount1 - nonPowerCount)
              (powerCards.length - powerCount1)
        else powerCount1
      let hand := shuffle (powerCards.take powerCount ++ nonPower.take nonPowerCount)
      let remaining := removeFirstOccs hand fullDeck
      Except.ok
        ({ s with
            mulligan_count := mc
            current_hand := hand
            remaining_deck := remaining },
          hand, decide (mc < s.max_mulligans))

/-- The serialized form of a `SimCard` produced by `DrawSimulator.to_dict`
(all seven fields are written out). -/
structure SimCardData where
  id : Nat
  name : String
  card_type : String
  cost : Nat
  influence : String
  image_url : String
  is_power : Bool
deriving DecidableEq

/-- One card's dict in `DrawSimulator.to_dict`. -/
def simCardToData (c : SimCard) : SimCardData :=
  ⟨c.id, c.name, c.card_type, c.cost, c.influence, c.image_url, c.is_power⟩

/-- `make_card` of `DrawSimulator.from_dict`. -/
def simCardOfData (d : SimCardData) : SimCard :=
  ⟨d.id, d.name, d.card_type, d.cost, d.influence, d.image_url, d.is_power⟩

/-- The plain key/value state written by `DrawSimulator.to_dict`. -/
structure DrawSimData where
  deck_cards : List SimCardData
  current_hand : List SimCardData
  remaining_deck : List SimCardData
  mulligan_count : Nat
deriving DecidableEq

/-- `DrawSimulator.to_dict`. -/
def drawSimToDict (s : DrawSimulator) : DrawSimData :=
  { deck_cards := s.deck_cards.map simCardToData
    current_hand := s.current_hand.map simCardToData
    remaining_deck := s.remaining_deck.map simCardToData
    mulligan_count := s.mulligan_count }

/-- `DrawSimulator.from_dict`: a default-constructed simulator
(`cls()`, hence `max_mulligans = 2`) whose card lists and mulligan counter
are overwritten from the stored data. -/
def drawSimFromDict (d : DrawSimData) : DrawSimulator :=
  { deck_cards := d.deck_cards.map simCardOfData
    current_hand := d.current_hand.map simCardOfData
    remaining_deck := d.remaining_deck.map simCardOfData
    mulligan_count := d.mulligan_count
    max_mulligans := 2 }

/-- `GoldfishCard` of goldfish_simulator.py. -/
structure GoldfishCard where
  id : Nat
  name : String
  card_type : String
  cost : Nat
  influence : String
  attack : Nat
  health : Nat
  image_url : String
  is_power : Bool
deriving DecidableEq

/-- `GoldfishState` of goldfish_simulator.py.  `power_available` is an Int
because spending a card's cost subtracts it (the playability check keeps it
non-negative, but the field itself is a plain Python int). -/
structure GoldfishState where
  hand : List GoldfishCard
  deck : List GoldfishCard
  battlefield : List GoldfishCard
  void : List GoldfishCard
  power_available : Int
  power_max : Nat
  influence : Influence
  turn : Nat
  power_played_this_turn : Bool
  total_damage_potential : Nat
  cards_played_total : Nat
  spells_cast : Nat
deriving DecidableEq

/-- `GoldfishSimulator.from_deck`'s card construction (market slots are
skipped by the caller loop, see `deckToGoldfishCards`). -/
def toGoldfishCard (c : Card) : GoldfishCard :=
  { id := c.id
    name := c.name
    card_type := c.card_type
    cost := c.cost
    influence := c.influence
    attack := c.attack
    health := c.health
    image_url := c.image_url
    is_power := isPowerType c.card_type }

/-- Main-deck expansion performed by `GoldfishSimulator.from_deck`. -/
def deckToGoldfishCards : List DeckCard → List GoldfishCard
  | [] => []
  | e :: rest =>
    (if e.is_market then [] else List.replicate e.quantity (toGoldfishCard e.card)) ++
      deckToGoldfishCards rest

/-- `GoldfishSimulator._setup_game`: fresh state, shuffled copy of the
original deck, zero influence, opening hand of 7 (take/drop is the guarded
7-fold pop of the Python loop). -/
def setupGame (shuffle : List GoldfishCard → List GoldfishCard)
    (original : List GoldfishCard) : GoldfishState :=
  let deck := shuffle original
  { hand := deck.take 7
    deck := deck.drop 7
    battlefield := []
    void := []
    power_available := 0
    power_max := 0
    influence := zeroInfluence
    turn := 0
    power_played_this_turn := false
    total_damage_potential := 0
    cards_played_total := 0
    spells_cast := 0 }

/-- `GoldfishSimulator.start_turn`: bump the turn counter, reset the
power-played flag, refresh power, then draw one card unless it is turn 1 or
the deck is empty.  Returns the drawn card alongside the new state (the
Python method also returns hand size and power, which are projections of
the state). -/
def startTurn (s : GoldfishState) : GoldfishState × Option GoldfishCard :=
  let s1 := { s with
    turn := s.turn + 1
    power_played_this_turn := false
    power_available := (s.power_max : Int) }
  if s1.turn > 1 then
    match s1.deck with
    | [] => (s1, none)
    | c :: rest => ({ s1 with deck := rest, hand := s1.hand ++ [c] }, some c)
  else (s1, none)

/-- `GoldfishSimulator._can_play`. -/
def canPlay (s : GoldfishState) (card : GoldfishCard) : Bool :=
  if card.is_power then !s.power_played_this_turn
  else if (card.cost : Int) > s.power_available then false
  else influenceLe (parseInfluence card.influence) s.influence

/-- The result dict of `GoldfishSimulator.play_card` (the keys that are not
recomputable projections of the returned state: `success`, `error`,
`action`). -/
structure PlayResult where
  success : Bool
  error : Option String
  action : Option String
deriving DecidableEq

/-- `GoldfishSimulator.play_card`.  Both failure checks precede every
mutation, so a failure returns the state unchanged; the Python method has
no raising path (membership is checked before `hand.remove`). -/
def playCard (s : GoldfishState) (card : GoldfishCard) : GoldfishState × PlayResult :=
  if card ∉ s.hand then
    (s, ⟨false, some "Card not in hand", none⟩)
  else if !canPlay s card then
    (s, ⟨false, some "Cannot play this card", none⟩)
  else
    let s1 := { s with
      hand := s.hand.erase card
      cards_played_total := s.cards_played_total + 1 }
    if card.is_power then
      ({ s1 with
          power_played_this_turn := true
          power_max := s1.power_max + 1
          power_available := s1.power_available + 1
          influence := addInfluenceString s1.influence card.influence
          void := s1.void ++ [card] },
        ⟨true, none, some "played_power"⟩)
    else
      let s2 := { s1 with power_available := s1.power_available - (card.cost : Int) }
      if card.card_type == "Unit" then
        ({ s2 with
            battlefield := s2.battlefield ++ [card]
            total_damage_potential := s2.total_damage_potential + card.attack },
          ⟨true, none, some "played_unit"⟩)
      else
        ({ s2 with
            void := s2.void ++ [card]
            spells_cast := s2.spells_cast + 1 },
          ⟨true, none, some "cast_spell"⟩)

/-- `GoldfishSimulator.get_playable_cards`. -/
def getPlayableCards (s : GoldfishState) : List GoldfishCard :=
  s.hand.filter (fun c => canPlay s c)

/-- Structural stable insertion sort; with `before a b` meaning "a must come
strictly earlier or ties with b", it reproduces Python's stable
`list.sort` (equal keys keep their original relative order, also under
`reverse=True`). -/
def insertBy {α : Type} (before : α → α → Bool) (a : α) : List α → List α
  | [] => [a]
  | b :: bs => if before a b then a :: b :: bs else b :: insertBy before a bs

/-- Stable sort built from `insertBy`. -/
def stableSortBy {α : Type} (before : α → α → Bool) : List α → List α
  | [] => []
  | a :: as => insertBy before a (stableSortBy before as)

/-- Python `sort(key=lambda c: c.cost, reverse=True)` for goldfish cards. -/
def sortByCostDesc (l : List GoldfishCard) : List GoldfishCard :=
  stableSortBy (fun a b => decide (b.cost ≤ a.cost)) l

/-- The unit sub-loop of `GoldfishSimulator.auto_play_turn`: repeatedly play
the highest-cost playable unit, stopping when none is playable or a play
reports failure.  The fuel bounds the Python `while True` loop, which
terminates because every successful play removes a card from hand; callers
pass the current hand size. -/
def playUnitsLoop : Nat → GoldfishState → GoldfishState
  | 0, s => s
  | fuel + 1, s =>
    let playable := (getPlayableCards s).filter (fun c => c.card_type == "Unit")
    match sortByCostDesc playable with
    | [] => s
    | c :: _ =>
      if (playCard s c).2.success then playUnitsLoop fuel (playCard s c).1
      else (playCard s c).1

/-- The spell sub-loop of `GoldfishSimulator.auto_play_turn` (cards that are
neither units nor power types). -/
def playSpellsLoop : Nat → GoldfishState → GoldfishState
  | 0, s => s
  | fuel + 1, s =>
    let playable := (getPlayableCards s).filter
      (fun c => !(c.card_type == "Unit" || c.card_type == "Power" || c.card_type == "Sigil"))
    match sortByCostDesc playable with
    | [] => s
    | c :: _ =>
      if (playCard s c).2.success then playSpellsLoop fuel (playCard s c).1
      else (playCard s c).1

/-- `GoldfishSimulator.auto_play_turn`: one power card if available and not
yet played, then the unit loop, then the spell loop. -/
def autoPlayTurn (s : GoldfishState) : GoldfishState :=
  let s1 :=
    match s.hand.filter (fun c => c.is_power) with
    | [] => s
    | c :: _ => if !s.power_played_this_turn then (playCard s c).1 else s
  let s2 := playUnitsLoop s1.hand.length s1
  playSpellsLoop s2.hand.length s2

/-- The caller-visible goldfish operations of claim C5. -/
inductive GOp where
  | startTurn
  | playCard (c : GoldfishCard)
  | autoPlayTurn
deriving DecidableEq

/-- Apply one operation, keeping only the state. -/
def applyGOp (s : GoldfishState) : GOp → GoldfishState
  | GOp.startTurn => (startTurn s).1
  | GOp.playCard c => (playCard s c).1
  | GOp.autoPlayTurn => autoPlayTurn s

/-- Run a sequence of goldfish operations. -/
def runGOps (s : GoldfishState) : List GOp → GoldfishState
  | [] => s
  | op :: rest => runGOps (applyGOp s op) rest

/-- Total card count across the four zones of a goldfish state. -/
def totalCards (s : GoldfishState) : Nat :=
  s.hand.length + s.deck.length + s.battlefield.length + s.void.length

/-- Serialized goldfish card (`card_to_dict` writes all nine fields). -/
structure GoldfishCardData where
  id : Nat
  name : String
  card_type : String
  cost : Nat
  influence : String
  attack : Nat
  health : Nat
  image_url : String
  is_power : Bool
deriving DecidableEq

/-- `card_to_dict` of `GoldfishSimulator.to_dict`. -/
def goldfishCardToData (c : GoldfishCard) : GoldfishCardData :=
  ⟨c.id, c.name, c.card_type, c.cost, c.influence, c.attack, c.health,
    c.image_url, c.is_power⟩

/-- `dict_to_card` of `GoldfishSimulator.from_dict`. -/
def goldfishCardOfData (d : GoldfishCardData) : GoldfishCard :=
  ⟨d.id, d.name, d.card_type, d.cost, d.influence, d.attack, d.health,
    d.image_url, d.is_power⟩

/-- The simulator object: the retained original deck plus the game state. -/
structure GoldfishSimulator where
  original_deck : List GoldfishCard
  state : GoldfishState
deriving DecidableEq

/-- `GoldfishSimulator.__init__`: copy the deck, then `_setup_game`. -/
def mkGoldfishSimulator (shuffle : List GoldfishCard → List GoldfishCard)
    (deckCards : List GoldfishCard) : GoldfishSimulator :=
  { original_deck := deckCards
    state := setupGame shuffle deckCards }

/-- The plain key/value state written by `GoldfishSimulator.to_dict`. -/
structure GoldfishSimData where
  original_deck : List GoldfishCardData
  hand : List GoldfishCardData
  deck : List GoldfishCardData
  battlefield : List GoldfishCardData
  void : List GoldfishCardData
  power_available : Int
  power_max : Nat
  influence : Influence
  turn : Nat
  power_played_this_turn : Bool
  total_damage_potential : Nat
  cards_played_total : Nat
  spells_cast : Nat
deriving DecidableEq

/-- `GoldfishSimulator.to_dict`. -/
def goldfishToDict (g : GoldfishSimulator) : GoldfishSimData :=
  { original_deck := g.original_deck.map goldfishCardToData
    hand := g.state.hand.map goldfishCardToData
    deck := g.state.deck.map goldfishCardToData
    battlefield := g.state.battlefield.map goldfishCardToData
    void := g.state.void.map goldfishCardToData
    power_available := g.state.power_available
    power_max := g.state.power_max
    influence := g.state.influence
    turn := g.state.turn
    power_played_this_turn := g.state.power_played_this_turn
    total_damage_potential := g.state.total_damage_potential
    cards_played_total := g.state.cards_played_total
    spells_cast := g.state.spells_cast }

/-- `GoldfishSimulator.from_dict`: construct via `cls(original_deck)` (whose
shuffled setup state is then dead) and overwrite every state field from the
stored data. -/
def goldfishFromDict (shuffle : List GoldfishCard → List GoldfishCard)
    (d : GoldfishSimData) : GoldfishSimulator :=
  let sim := mkGoldfishSimulator shuffle (d.original_deck.map goldfishCardOfData)
  { sim with
    state :=
      { hand := d.hand.map goldfishCardOfData
        deck := d.deck.map goldfishCardOfData
        battlefield := d.battlefield.map goldfishCardOfData
        void := d.void.map goldfishCardOfData
        power_available := d.power_available
        power_max := d.power_max
        influence := d.influence
        turn := d.turn
        power_played_this_turn := d.power_played_this_turn
        total_damage_potential := d.total_damage_potential
        cards_played_total := d.cards_played_total
        spells_cast := d.spells_cast } }

/-- `BattleCard` of battle_simulator.py.  `current_health` is an Int (combat
subtracts attack values and may drive it negative before the death check). -/
structure BattleCard where
  id : Nat
  name : String
  card_type : String
  cost : Nat
  influence : String
  attack : Nat
  health : Nat
  current_health : Int
  is_power : Bool
  can_attack : Bool
  is_tapped : Bool
deriving DecidableEq

/-- `PlayerState` of battle_simulator.py. -/
structure PlayerState where
  name : String
  health : Int
  hand : List BattleCard
  deck : List BattleCard
  battlefield : List BattleCard
  void : List BattleCard
  power_available : Int
  power_max : Nat
  influence : Influence
  power_played_this_turn : Bool
deriving DecidableEq

/-- The fresh copy `_create_player` builds for each deck card: the
constructor omits `current_health` (so `__post_init__` sets it to `health`)
and the combat flags. -/
def freshBattleCard (c : BattleCard) : BattleCard :=
  { c with
    current_health := (c.health : Int)
    can_attack := false
    is_tapped := false }

/-- `BattleSimulator._draw_opening_hand`: draw 7 (guarded pops, i.e.
take/drop), mulligan to 6 after a reshuffle when the hand holds ≤2 or ≥5
power cards (`deck.extend(hand)` puts the hand at the back of the deck
before the reshuffle). -/
def drawOpeningHand (shuffle : List BattleCard → List BattleCard)
    (p : PlayerState) : PlayerState :=
  let hand := p.deck.take 7
  let deck := p.deck.drop 7
  let powerCount := (hand.filter (fun c => c.is_power)).length
  if powerCount ≤ 2 || powerCount ≥ 5 then
    let full := shuffle (deck ++ hand)
    { p with hand := full.take 6, deck := full.drop 6 }
  else
    { p with hand := hand, deck := deck }

/-- `BattleSimulator._create_player`: fresh card copies, shuffle, zero
resources, then the opening hand. -/
def createPlayer (shuffle : List BattleCard → List BattleCard)
    (cards : List BattleCard) (playerName : String) : PlayerState :=
  let deck := shuffle (cards.map freshBattleCard)
  drawOpeningHand shuffle
    { name := playerName
      health := 25
      hand := []
      deck := deck
      battlefield := []
      void := []
      power_available := 0
      power_max := 0
      influence := zeroInfluence
      power_played_this_turn := false }

/-- `BattleSimulator._can_play`. -/
def canPlayB (p : PlayerState) (card : BattleCard) : Bool :=
  if card.is_power then !p.power_played_this_turn
  else if (card.cost : Int) > p.power_available then false
  else influenceLe (parseInfluence card.influence) p.influence

/-- `BattleSimulator._play_card`: silently ignore a card not in hand;
power raises resources and goes to void; units enter the battlefield with
summoning sickness; anything else goes to void for its cost. -/
def playCardB (p : PlayerState) (card : BattleCard) : PlayerState :=
  if card ∉ p.hand then p
  else
    let p1 := { p with hand := p.hand.erase card }
    if card.is_power then
      { p1 with
        power_played_this_turn := true
        power_max := p1.power_max + 1
        power_available := p1.power_available + 1
        influence := addInfluenceString p1.influence card.influence
        void := p1.void ++ [card] }
    else if card.card_type == "Unit" then
      { p1 with
        battlefield := p1.battlefield ++ [{ card with can_attack := false }]
        power_available := p1.power_available - (card.cost : Int) }
    else
      { p1 with
        void := p1.void ++ [card]
        power_available := p1.power_available - (card.cost : Int) }

/-- The unit sub-loop of `BattleSimulator._ai_play_turn`: repeatedly play
the highest-cost playable unit (stable descending sort) until none is
playable.  Fuel bounds the `while True` loop (every play removes a hand
card); callers pass the hand size. -/
def playUnitsLoopB : Nat → PlayerState → PlayerState
  | 0, p => p
  | fuel + 1, p =>
    let playable := p.hand.filter (fun c => c.card_type == "Unit" && canPlayB p c)
    match stableSortBy (fun a b => decide (b.cost ≤ a.cost)) playable with
    | [] => p
    | c :: _ => playUnitsLoopB fuel (playCardB p c)

/-- `BattleSimulator._ai_play_turn`: one power card first (if any and not
yet played), then the unit loop. -/
def aiPlayTurnB (p : PlayerState) : PlayerState :=
  let p1 :=
    match p.hand.filter (fun c => c.is_power) with
    | [] => p
    | c :: _ => if !p.power_played_this_turn then playCardB p c else p
  playUnitsLoopB p1.hand.length p1

/-- The attacker iteration of `BattleSimulator._resolve_combat`.  The Python
loop mutates shared card objects; here the blocker choice updates both the
`blockers` working list and the defender's battlefield, resolving object
identity among value-identical copies to the first occurrence (the
resulting multisets coincide with Python's).  The in-place
`blockers.sort(key=current_health, reverse=True)` persists across
iterations, which the recursion reproduces by passing the sorted remainder
on. -/
def combatLoop : List BattleCard → PlayerState → PlayerState → List BattleCard →
    Nat → PlayerState × PlayerState × Nat
  | [], a, d, _, dmg => (a, d, dmg)
  | atk :: rest, a, d, blockers, dmg =>
    match stableSortBy (fun u v => decide (v.current_health ≤ u.current_health)) blockers with
    | [] => combatLoop rest a d [] (dmg + atk.attack)
    | b :: brest =>
      let b' := { b with current_health := b.current_health - (atk.attack : Int) }
      let atk' := { atk with current_health := atk.current_health - (b.attack : Int) }
      let dAfter :=
        if b'.current_health ≤ 0 then
          { d with battlefield := d.battlefield.erase b, void := d.void ++ [b'] }
        else
          { d with battlefield := d.battlefield.replace b b' }
      let blockersAfter := if b'.current_health ≤ 0 then brest else b' :: brest
      let aAfter :=
        if atk'.current_health ≤ 0 then
          { a with battlefield := a.battlefield.erase atk, void := a.void ++ [atk'] }
        else
          { a with battlefield := a.battlefield.replace atk atk' }
      combatLoop rest aAfter dAfter blockersAfter dmg

/-- `BattleSimulator._resolve_combat`: untapped attack-eligible units
attack in stable descending attack order; returns the two updated player
states and the unblocked face damage. -/
def resolveCombat (a d : PlayerState) : PlayerState × PlayerState × Nat :=
  let attackers := a.battlefield.filter (fun u => u.can_attack && !u.is_tapped)
  match attackers with
  | [] => (a, d, 0)
  | _ :: _ =>
    combatLoop (stableSortBy (fun u v => decide (v.attack ≤ u.attack)) attackers)
      a d d.battlefield 0

/-- Why the turn loop of `simulate_game` stopped. -/
inductive ExitReason where
  | cap
  | healthOut
  | deckEmpty
deriving DecidableEq

/-- The loop state of `BattleSimulator.simulate_game`.  `drawLog` is a ghost
field recording `(turn, drawing player is player1)` for every executed
draw; it influences nothing. -/
structure GameState where
  p1 : PlayerState
  p2 : PlayerState
  curIsP1 : Bool
  turn : Nat
  p1_units_played : Nat
  p2_units_played : Nat
  p1_damage_dealt : Nat
  p2_damage_dealt : Nat
  drawLog : List (Nat × Bool)
deriving DecidableEq

/-- One iteration of the `while turn < MAX_TURNS` loop of `simulate_game`:
untap, draw (the skip test is Python's `turn == 1 and current == player1`;
when the current player IS player1 the object comparison is reflexively
true, hence the `curIsP1` disjunct), deck-empty break, AI main phase with
units-played bookkeeping, combat with damage bookkeeping, win check, player
swap.  `current == player1` elsewhere is the same pattern: object identity
makes it true for player1's own turn, and otherwise it is a structural
comparison of the two player states. -/
def stepTurn (g : GameState) : GameState × Option ExitReason :=
  let turn := g.turn + 1
  let cur0 := if g.curIsP1 then g.p1 else g.p2
  let other0 := if g.curIsP1 then g.p2 else g.p1
  let cur1 := { cur0 with
    power_available := (cur0.power_max : Int)
    power_played_this_turn := false
    battlefield := cur0.battlefield.map
      (fun u => { u with is_tapped := false, can_attack := true }) }
  let skipDraw := turn == 1 && (g.curIsP1 || cur1 == g.p1)
  let drawn : Option (PlayerState × List (Nat × Bool)) :=
    if skipDraw then some (cur1, g.drawLog)
    else
      match cur1.deck with
      | [] => none
      | c :: rest =>
        some ({ cur1 with deck := rest, hand := cur1.hand ++ [c] },
          g.drawLog ++ [(turn, g.curIsP1)])
  match drawn with
  | none =>
    ({ g with
        p1 := if g.curIsP1 then cur1 else g.p1
        p2 := if g.curIsP1 then g.p2 else cur1
        turn := turn },
      some ExitReason.deckEmpty)
  | some (cur2, log2) =>
    let unitsBefore := cur2.battlefield.length
    let cur3 := aiPlayTurnB cur2
    let unitDiff := cur3.battlefield.length - unitsBefore
    let creditUnitsP1 := g.curIsP1 || cur3 == g.p1
    let p1u := if creditUnitsP1 then g.p1_units_played + unitDiff else g.p1_units_played
    let p2u := if creditUnitsP1 then g.p2_units_played else g.p2_units_played + unitDiff
    let combatRes := resolveCombat cur3 other0
    let cur4 := combatRes.1
    let damage := combatRes.2.2
    let other2 := { combatRes.2.1 with health := combatRes.2.1.health - (damage : Int) }
    let newP1 := if g.curIsP1 then cur4 else other2
    let newP2 := if g.curIsP1 then other2 else cur4
    let creditDmgP1 := g.curIsP1 || cur4 == newP1
    let p1d := if creditDmgP1 then g.p1_damage_dealt + damage else g.p1_damage_dealt
    let p2d := if creditDmgP1 then g.p2_damage_dealt else g.p2_damage_dealt + damage
    let g1 := { g with
      p1 := newP1
      p2 := newP2
      turn := turn
      p1_units_played := p1u
      p2_units_played := p2u
      p1_damage_dealt := p1d
      p2_damage_dealt := p2d
      drawLog := log2 }
    if other2.health ≤ 0 then (g1, some ExitReason.healthOut)
    else ({ g1 with curIsP1 := !g.curIsP1 }, none)

/-- `BattleSimulator.MAX_TURNS`. -/
def MAX_TURNS : Nat := 30

/-- The turn loop of `simulate_game`.  The fuel equals `MAX_TURNS`; since
every iteration increments the turn counter starting from 0, fuel
exhaustion and the `turn < MAX_TURNS` test coincide. -/
def gameLoop : Nat → GameState → GameState × ExitReason
  | 0, g => (g, ExitReason.cap)
  | fuel + 1, g =>
    if g.turn < MAX_TURNS then
      match stepTurn g with
      | (g1, some r) => (g1, r)
      | (g1, none) => gameLoop fuel g1
    else (g, ExitReason.cap)

/-- The final state of one simulated game, with the ghost exit reason and
draw log. -/
structure GameFinal where
  p1 : PlayerState
  p2 : PlayerState
  turn : Nat
  exitReason : ExitReason
  p1_units_played : Nat
  p2_units_played : Nat
  p1_damage_dealt : Nat
  p2_damage_dealt : Nat
  drawLog : List (Nat × Bool)
deriving DecidableEq

/-- `simulate_game` up to (but not including) the winner determination:
build both players, pick who goes first (`p1First` is the coin
`random.random() < 0.5`), run the loop. -/
def runGame (shuffle : List BattleCard → List BattleCard) (p1First : Bool)
    (deck1 deck2 : List BattleCard) (n1 n2 : String) : GameFinal :=
  let p1 := createPlayer shuffle deck1 n1
  let p2 := createPlayer shuffle deck2 n2
  let g0 : GameState :=
    { p1 := p1, p2 := p2, curIsP1 := p1First, turn := 0
      p1_units_played := 0, p2_units_played := 0
      p1_damage_dealt := 0, p2_damage_dealt := 0, drawLog := [] }
  let res := gameLoop MAX_TURNS g0
  { p1 := res.1.p1
    p2 := res.1.p2
    turn := res.1.turn
    exitReason := res.2
    p1_units_played := res.1.p1_units_played
    p2_units_played := res.1.p2_units_played
    p1_damage_dealt := res.1.p1_damage_dealt
    p2_damage_dealt := res.1.p2_damage_dealt
    drawLog := res.1.drawLog }

/-- The winner-determination chain at the end of `simulate_game`
(battle_simulator.py lines 355-373), in source order: double knockout,
knockouts, empty decks, then the health comparison. -/
def determineWinner (p1 p2 : PlayerState) : String :=
  if p1.health ≤ 0 ∧ p2.health ≤ 0 then "draw"
  else if p2.health ≤ 0 then "player1"
  else if p1.health ≤ 0 then "player2"
  else if p1.deck = [] then "player2"
  else if p2.deck = [] then "player1"
  else if p2.health < p1.health then "player1"
  else if p1.health < p2.health then "player2"
  else "draw"

/-- `BattleResult` of battle_simulator.py. -/
structure BattleResult where
  winner : String
  turns : Nat
  player1_final_health : Int
  player2_final_health : Int
  player1_units_played : Nat
  player2_units_played : Nat
  player1_damage_dealt : Nat
  player2_damage_dealt : Nat
deriving DecidableEq

/-- `BattleSimulator.simulate_game`. -/
def simulateGame (shuffle : List BattleCard → List BattleCard) (p1First : Bool)
    (deck1 deck2 : List BattleCard) (n1 n2 : String) : BattleResult :=
  let g := runGame shuffle p1First deck1 deck2 n1 n2
  { winner := determineWinner g.p1 g.p2
    turns := g.turn
    player1_final_health := max 0 g.p1.health
    player2_final_health := max 0 g.p2.health
    player1_units_played := g.p1_units_played
    player2_units_played := g.p2_units_played
    player1_damage_dealt := g.p1_damage_dealt
    player2_damage_dealt := g.p2_damage_dealt }

/-- A basic power sigil used by the concrete battle games: a power-type
card with no influence pips, no attack and no health. -/
def sigilP : BattleCard :=
  { id := 1, name := "P", card_type := "Sigil", cost := 0, influence := ""
    attack := 0, health := 0, current_health := 0, is_power := true
    can_attack := false, is_tapped := false }

/-- A deck of `n` copies of the basic power sigil. -/
def powerDeck (n : Nat) : List BattleCard := List.replicate n sigilP

/-- A one-pip Fire power card used by the concrete analyzer inputs. -/
def fireSigil : Card :=
  { id := 10, name := "Fire Sigil", card_type := "Sigil", cost := 0
    influence := "{F}", attack := 0, health := 0, card_text := ""
    unit_types := "", image_url := "" }

/-- A power card providing two Fire pips per copy. -/
def doubleFireSeat : Card :=
  { id := 11, name := "Seat of Fire", card_type := "Power", cost := 0
    influence := "{F}{F}", attack := 0, health := 0, card_text := ""
    unit_types := "", image_url := "" }

/-- A cheap spell with no influence requirement. -/
def spellCard : Card :=
  { id := 3, name := "Bolt", card_type := "Spell", cost := 1
    influence := "", attack := 0, health := 0, card_text := ""
    unit_types := "", image_url := "" }

/-- A unit whose rules text contains the word "Flying" once. -/
def flyingUnit : Card :=
  { id := 4, name := "Bird", card_type := "Unit", cost := 2
    influence := "{P}", attack := 2, health := 2, card_text := "Flying"
    unit_types := "Bird", image_url := "" }

/-- Concrete deck for claim C1: two main-deck Fire Sigils plus one
market-flagged Fire Sigil. -/
def deckWithMarket : List DeckCard :=
  [⟨fireSigil, 2, false⟩, ⟨fireSigil, 1, true⟩]

/-- Concrete deck for claim C2: three copies of the double-pip power card. -/
def doublePipDeck : List DeckCard := [⟨doubleFireSeat, 3, false⟩]

/-- Concrete deck for claim C7: one slot of two copies of the Flying unit. -/
def flyingDeck : List DeckCard := [⟨flyingUnit, 2, false⟩]

/-- Concrete draw simulator for claim C4: a three-spell deck holding no
power card at all, freshly dealt with the identity shuffle. -/
def noPowerDrawSim : DrawSimulator :=
  drawSimFromDeck id [⟨spellCard, 3, false⟩]

/-- Concrete goldfish inputs for the C5 and C8 witnesses. -/
def gfSpell : GoldfishCard := toGoldfishCard spellCard

/-- A goldfish state with no cards anywhere (empty deck snapshot). -/
def gfEmptyState : GoldfishState := setupGame id []

/-- Two-spell main deck used by the C5 witness. -/
def smallGoldfishDeck : List DeckCard := [⟨spellCard, 2, false⟩]

/-- Operation sequence used by the C5 witness. -/
def witnessOps : List GOp :=
  [GOp.startTurn, GOp.autoPlayTurn, GOp.startTurn, GOp.playCard gfSpell]


/-! ### Helper lemmas -/

theorem simCardData_roundtrip (c : SimCard) : simCardOfData (simCardToData c) = c := rfl

theorem goldfishCardData_roundtrip (c : GoldfishCard) :
    goldfishCardOfData (goldfishCardToData c) = c := rfl

theorem map_simCard_roundtrip (l : List SimCard) :
    List.map (simCardOfData ∘ simCardToData) l = l := by
  have h : simCardOfData ∘ simCardToData = id := funext fun c => rfl
  rw [h, List.map_id]

theorem map_goldfishCard_roundtrip (l : List GoldfishCard) :
    List.map (goldfishCardOfData ∘ goldfishCardToData) l = l := by
  have h : goldfishCardOfData ∘ goldfishCardToData = id := funext fun c => rfl
  rw [h, List.map_id]

theorem totalCards_startTurn (s : GoldfishState) :
    totalCards (startTurn s).1 = totalCards s := by
  simp only [startTurn]
  split
  · split
    · rfl
    · rename_i c rest hd
      simp only [totalCards, List.length_append, List.length_cons,
        List.length_nil, hd]
      omega
  · rfl

theorem totalCards_playCard (s : GoldfishState) (c : GoldfishCard) :
    totalCards (playCard s c).1 = totalCards s := by
  unfold playCard
  by_cases hmem : c ∈ s.hand
  · have hpos : 0 < s.hand.length := List.length_pos_of_mem hmem
    have herase : (s.hand.erase c).length = s.hand.length - 1 :=
      List.length_erase_of_mem hmem
    simp only [hmem, not_true_eq_false, if_false]
    split_ifs <;>
      simp only [totalCards, List.length_append, List.length_cons, herase,
        List.length_nil] <;>
      omega
  · simp [hmem, totalCards]

theorem totalCards_playUnitsLoop (fuel : Nat) (s : GoldfishState) :
    totalCards (playUnitsLoop fuel s) = totalCards s := by
  induction fuel generalizing s with
  | zero => rfl
  | succ n ih =>
    simp only [playUnitsLoop]
    split
    · rfl
    · split
      · rw [ih, totalCards_playCard]
      · rw [totalCards_playCard]

theorem totalCards_playSpellsLoop (fuel : Nat) (s : GoldfishState) :
    totalCards (playSpellsLoop fuel s) = totalCards s := by
  induction fuel generalizing s with
  | zero => rfl
  | succ n ih =>
    simp only [playSpellsLoop]
    split
    · rfl
    · split
      · rw [ih, totalCards_playCard]
      · rw [totalCards_playCard]

theorem totalCards_autoPlayTurn (s : GoldfishState) :
    totalCards (autoPlayTurn s) = totalCards s := by
  unfold autoPlayTurn
  split
  · rw [totalCards_playSpellsLoop, totalCards_playUnitsLoop]
  · split
    · rw [totalCards_playSpellsLoop, totalCards_playUnitsLoop, totalCards_playCard]
    · rw [totalCards_playSpellsLoop, totalCards_playUnitsLoop]

theorem totalCards_applyGOp (s : GoldfishState) (op : GOp) :
    totalCards (applyGOp s op) = totalCards s := by
  cases op <;>
    simp [applyGOp, totalCards_startTurn, totalCards_playCard, totalCards_autoPlayTurn]

theorem totalCards_runGOps (ops : List GOp) (s : GoldfishState) :
    totalCards (runGOps s ops) = totalCards s := by
  induction ops generalizing s with
  | nil => rfl
  | cons op rest ih => rw [runGOps, ih, totalCards_applyGOp]

theorem totalCards_setupGame (shuffle : List GoldfishCard → List GoldfishCard)
    (orig : List GoldfishCard) (h : ∀ l, (shuffle l).Perm l) :
    totalCards (setupGame shuffle orig) = orig.length := by
  have hlen := (h orig).length_eq
  simp only [setupGame, totalCards, List.length_take, List.length_drop,
    List.length_nil]
  omega

theorem length_deckToGoldfishCards (deck : List DeckCard) :
    (deckToGoldfishCards deck).length = mainDeckCount deck := by
  induction deck with
  | nil => rfl
  | cons e rest ih =>
    by_cases h : e.is_market <;>
      simp [deckToGoldfishCards, mainDeckCount, h, ih]

/-! ### Claim theorems -/

/-- C1: the claim says every analysis of the core excludes market-flagged
entries, in particular the Power/Influence Analyzer.  The analyzer's own
loop has no market filter: on a deck with two main-deck Fire Sigils and one
market Fire Sigil it reports 3 total cards, 3 power cards and 3 Fire
sources, whereas the main deck holds 2 cards (and the analyzer run on the
market-filtered deck reports 2). -/
theorem power_analyzer_includes_market :
    (mkAnalyzer deckWithMarket).total_cards = 3 ∧
    getTotalPowerCount (mkAnalyzer deckWithMarket) = 3 ∧
    (getInfluenceSources (mkAnalyzer deckWithMarket)).F = 3 ∧
    mainDeckCount deckWithMarket = 2 ∧
    (mkAnalyzer (deckWithMarket.filter (fun e => !e.is_market))).total_cards = 2 := by
  decide

/-- C2 counterexample: three copies of a power card with influence
"{F}{F}" yield a Fire source count of 3 (one per copy), not the
pip-weighted 6 the claim requires. -/
theorem influence_sources_not_pip_weighted :
    (getInfluenceSources (mkAnalyzer doublePipDeck)).F = 3 ∧ (3 : Nat) ≠ 6 := by
  decide

/-- C2 amended: `get_influence_sources` counts, per faction, the total
quantity of power-type slots providing at least one pip of that faction —
copies, not pips (a card with two pips of F still contributes its quantity
once).  Proved against the independently stated `influenceCopySources`. -/
theorem influence_sources_copy_weighted (deck : List DeckCard) :
    getInfluenceSources (mkAnalyzer deck) = influenceCopySources deck := by
  induction deck with
  | nil => rfl
  | cons e rest ih =>
    simp only [getInfluenceSources, mkAnalyzer] at ih ⊢
    simp only [analyzeLoop, influenceCopySources]
    by_cases hp : isPowerType e.card.card_type
    · by_cases he : influenceIsEmpty (parseInfluence e.card.influence)
      · obtain ⟨⟨⟨⟨hF, hT⟩, hJ⟩, hP⟩, hS⟩ :
            ((((parseInfluence e.card.influence).F = 0 ∧
              (parseInfluence e.card.influence).T = 0) ∧
              (parseInfluence e.card.influence).J = 0) ∧
              (parseInfluence e.card.influence).P = 0) ∧
            (parseInfluence e.card.influence).S = 0 := by
          simpa [influenceIsEmpty] using he
        simp [hp, he, ih, hF, hT, hJ, hP, hS]
      · simp [hp, he, sumSources, mkPowerSource, ih]
    · simp [hp, ih]

/-- C10: `hypergeometric_probability` returns 0 whenever
`binomial population draws` is 0, without dividing — either an early
impossibility branch fires or the explicit zero-denominator guard does. -/
theorem hypergeometric_zero_denominator (N K n k : Nat)
    (h : binomial N n = 0) :
    hypergeometricProbability N K n k = 0 := by
  simp [hypergeometricProbability, h]

/-- Witness for C10 at a concrete input with `draws > population`. -/
theorem hypergeometric_zero_denominator_witness :
    binomial 2 3 = 0 ∧ hypergeometricProbability 2 1 3 1 = 0 :=
  ⟨by decide, hypergeometric_zero_denominator 2 1 3 1 (by decide)⟩

/-- C7: a single slot of quantity 2 whose text contains the word "Flying"
once drives the analyzer's Flying count to 4 (the slot is expanded into 2
copies and each copy adds the full slot quantity), not the 2 the claim
requires. -/
theorem flying_count_quantity_squared :
    keywordCount "Flying" flyingDeck = 4 ∧ (4 : Nat) ≠ 2 := by
  decide

/-- C4: on a deck with no power cards at all, the first mulligan reaches
`random.randint(2, min(4, 0, 6))`, whose empty range raises ValueError:
the embedded `mulligan` surfaces the error instead of a result value. -/
theorem mulligan_no_power_value_error :
    mulligan id 0 noPowerDrawSim =
      Except.error "ValueError: empty range for randrange" := by
  rfl

/-- C5: across any sequence of startTurn / playCard / autoPlayTurn calls
from a fresh goldfish game, hand + deck + battlefield + void always totals
the original main-deck card count, for every shuffle outcome. -/
theorem goldfish_total_cards_invariant
    (shuffle : List GoldfishCard → List GoldfishCard) (deck : List DeckCard)
    (ops : List GOp) (hs : ∀ l, (shuffle l).Perm l) :
    totalCards (runGOps (setupGame shuffle (deckToGoldfishCards deck)) ops) =
      mainDeckCount deck := by
  rw [totalCards_runGOps, totalCards_setupGame shuffle _ hs,
    length_deckToGoldfishCards]

/-- Witness for C5 on a concrete deck and operation sequence. -/
theorem goldfish_total_cards_invariant_witness :
    totalCards (runGOps (setupGame id (deckToGoldfishCards smallGoldfishDeck))
      witnessOps) = mainDeckCount smallGoldfishDeck :=
  goldfish_total_cards_invariant id smallGoldfishDeck witnessOps
    (fun l => List.Perm.refl l)

/-- C8: `play_card` on a card not in hand, or unplayable, returns a
success=false result carrying a reason and leaves the state untouched
(both checks precede every mutation); on a playable card in hand it
returns success=true with no error. -/
theorem goldfish_play_card_contract (s : GoldfishState) (c : GoldfishCard) :
    (c ∉ s.hand →
      playCard s c = (s, ⟨false, some "Card not in hand", none⟩)) ∧
    (c ∈ s.hand → canPlay s c = false →
      playCard s c = (s, ⟨false, some "Cannot play this card", none⟩)) ∧
    (c ∈ s.hand → canPlay s c = true →
      (playCard s c).2.success = true ∧ (playCard s c).2.error = none) := by
  refine ⟨fun h => ?_, fun hmem hcp => ?_, fun hmem hcp => ?_⟩
  · simp [playCard, h]
  · simp [playCard, hmem, hcp]
  · simp only [playCard, hmem, not_true_eq_false, if_false, hcp,
      Bool.not_true, ite_false]
    split_ifs <;> simp_all

/-- Witness for C8: playing any card from an empty hand fails with the
"Card not in hand" reason and an unchanged state. -/
theorem goldfish_play_card_contract_witness :
    playCard gfEmptyState gfSpell =
      (gfEmptyState, ⟨false, some "Card not in hand", none⟩) :=
  (goldfish_play_card_contract gfEmptyState gfSpell).1 (by decide)

/-- C9: the draw-simulator and goldfish-simulator serialization round-trips
reproduce every zone list and every counter exactly (for the goldfish
simulator the whole game state record is reproduced, whatever shuffle the
reconstructing constructor is given). -/
theorem simulator_serialization_roundtrip :
    (∀ s : DrawSimulator,
      (drawSimFromDict (drawSimToDict s)).deck_cards = s.deck_cards ∧
      (drawSimFromDict (drawSimToDict s)).current_hand = s.current_hand ∧
      (drawSimFromDict (drawSimToDict s)).remaining_deck = s.remaining_deck ∧
      (drawSimFromDict (drawSimToDict s)).mulligan_count = s.mulligan_count) ∧
    (∀ (shuffle : List GoldfishCard → List GoldfishCard)
      (g : GoldfishSimulator),
      (goldfishFromDict shuffle (goldfishToDict g)).original_deck =
        g.original_deck ∧
      (goldfishFromDict shuffle (goldfishToDict g)).state = g.state) := by
  constructor
  · intro s
    refine ⟨?_, ?_, ?_, ?_⟩ <;>
      simp [drawSimFromDict, drawSimToDict, map_simCard_roundtrip]
  · intro shuffle g
    constructor
    · simp [goldfishFromDict, goldfishToDict, mkGoldfishSimulator,
        map_goldfishCard_roundtrip]
    · simp [goldfishFromDict, goldfishToDict, mkGoldfishSimulator,
        map_goldfishCard_roundtrip]

/-- C3 counterexample: a game between a 20-sigil deck and a 22-sigil deck
(player1 first) runs to the turn cap with both healths at 25 and no failed
draw, yet the winner is "player2" — not the "draw" the claim requires for
equal life totals — because player1's deck was drawn out exactly and the
deck-emptiness checks precede the life comparison. -/
theorem battle_cap_deck_empty_counterexample :
    (runGame id true (powerDeck 20) (powerDeck 22) "A" "B").exitReason =
      ExitReason.cap ∧
    (runGame id true (powerDeck 20) (powerDeck 22) "A" "B").p1.health = 25 ∧
    (runGame id true (powerDeck 20) (powerDeck 22) "A" "B").p2.health = 25 ∧
    (runGame id true (powerDeck 20) (powerDeck 22) "A" "B").p1.deck = [] ∧
    (simulateGame id true (powerDeck 20) (powerDeck 22) "A" "B").winner =
      "player2" := by
  decide

/-- C3 amended: when the loop ends at the 30-turn cap with both life totals
positive AND both decks still non-empty, the winner is the player with the
strictly higher life total and equal totals give "draw"; an empty deck at
the cap instead loses regardless of life (see the counterexample). -/
theorem battle_cap_higher_health_wins
    (shuffle : List BattleCard → List BattleCard) (p1First : Bool)
    (d1 d2 : List BattleCard) (n1 n2 : String)
    (_hcap : (runGame shuffle p1First d1 d2 n1 n2).exitReason = ExitReason.cap)
    (h1 : 0 < (runGame shuffle p1First d1 d2 n1 n2).p1.health)
    (h2 : 0 < (runGame shuffle p1First d1 d2 n1 n2).p2.health)
    (hd1 : (runGame shuffle p1First d1 d2 n1 n2).p1.deck ≠ [])
    (hd2 : (runGame shuffle p1First d1 d2 n1 n2).p2.deck ≠ []) :
    (simulateGame shuffle p1First d1 d2 n1 n2).winner =
      if (runGame shuffle p1First d1 d2 n1 n2).p2.health <
          (runGame shuffle p1First d1 d2 n1 n2).p1.health then "player1"
      else if (runGame shuffle p1First d1 d2 n1 n2).p1.health <
          (runGame shuffle p1First d1 d2 n1 n2).p2.health then "player2"
      else "draw" := by
  have e : (simulateGame shuffle p1First d1 d2 n1 n2).winner =
      determineWinner (runGame shuffle p1First d1 d2 n1 n2).p1
        (runGame shuffle p1First d1 d2 n1 n2).p2 := rfl
  rw [e]
  simp only [determineWinner]
  rw [if_neg (by omega), if_neg (by omega), if_neg (by omega),
    if_neg hd1, if_neg hd2]

/-- Witness for C3 on a concrete cap-length game with both decks
non-empty. -/
theorem battle_cap_higher_health_wins_witness :
    (simulateGame id true (powerDeck 21) (powerDeck 22) "A" "B").winner =
      if (runGame id true (powerDeck 21) (powerDeck 22) "A" "B").p2.health <
          (runGame id true (powerDeck 21) (powerDeck 22) "A" "B").p1.health
      then "player1"
      else if (runGame id true (powerDeck 21) (powerDeck 22) "A" "B").p1.health <
          (runGame id true (powerDeck 21) (powerDeck 22) "A" "B").p2.health
      then "player2"
      else "draw" :=
  battle_cap_higher_health_wins id true (powerDeck 21) (powerDeck 22) "A" "B"
    (by decide) (by decide) (by decide) (by decide) (by decide)

/-- C6: the skip condition is `turn == 1 and current == player1`, not "the
player who goes first".  In a concrete game where player2 goes first (both
decks 22 sigils), the draw log records a draw by player2 on turn 1 and one
draw on every one of the 30 turns — no draw is ever skipped — whereas the
same decks with player1 first show 29 draws (the turn-1 skip).  The claim
says whichever player goes first skips the turn-1 draw. -/
theorem battle_first_player_draw_code_bug :
    ((runGame id false (powerDeck 22) (powerDeck 22) "A" "B").drawLog.contains
      (1, false)) = true ∧
    (runGame id false (powerDeck 22) (powerDeck 22) "A" "B").drawLog.length = 30 ∧
    (runGame id true (powerDeck 22) (powerDeck 22) "A" "B").drawLog.length = 29 := by
  decide
